import Mathlib

/-!
Verification of the WiFi credential template `src/main/secrets_example.h`.

The repository consists of a single C header file: a comment block with
copy-rename-edit instructions, an include guard `SECRETS_H`, and two
string-constant declarations (`ssid` and `password`) holding placeholder
values.  The development below embeds the file as its list of text lines,
parses declarations and preprocessor directives from those lines exactly as
they appear in the source, and models the C preprocessor's handling of
`#ifndef` / `#define` / `#endif` so that multiple-inclusion behaviour can be
stated and proved.
-/

namespace Secrets

/-- Shape of a parsed C string-constant declaration
`const char* name = "value";` — `pointeeConst` records a `const` qualifier on
the pointed-to characters, `ptrConst` records a `const` qualifier on the
pointer variable itself (present only in `const char* const name = ...`). -/
structure CDecl where
  name : String
  value : String
  pointeeConst : Bool
  ptrConst : Bool
deriving DecidableEq

/-- Removes the expected character sequence `p` from the front of `s`,
returning the remainder, or `none` when `s` does not start with `p`. -/
def stripPref : List Char → List Char → Option (List Char)
  | [], s => some s
  | _ :: _, [] => none
  | p :: ps, c :: cs => if p = c then stripPref ps cs else none

/-- Splits a character list at the first occurrence of `t`, returning the
part before it and the part after it, or `none` when `t` does not occur. -/
def takeUntil (t : Char) : List Char → Option (List Char × List Char)
  | [] => none
  | c :: cs =>
    if c = t then some ([], cs)
    else
      match takeUntil t cs with
      | none => none
      | some (a, b) => some (c :: a, b)

/-- Parses a C character-pointer string declaration of the textual shape
found in the source file: an optional `const` qualifier, `char*`, an optional
trailing `const` qualifier on the pointer, the identifier, ` = "value";` and
arbitrary trailing text (such as an inline comment). -/
def parseCDecl (cs : List Char) : Option CDecl :=
  let (pc, r0) :=
    match stripPref "const ".data cs with
    | some r => (true, r)
    | none => (false, cs)
  match stripPref "char*".data r0 with
  | none => none
  | some r1 =>
    let (qc, r2) :=
      match stripPref " const".data r1 with
      | some r => (true, r)
      | none => (false, r1)
    match r2 with
    | ' ' :: r3 =>
      match takeUntil ' ' r3 with
      | none => none
      | some (nm, r4) =>
        match stripPref "= \x22".data r4 with
        | none => none
        | some r5 =>
          match takeUntil '\x22' r5 with
          | none => none
          | some (vl, r6) =>
            match r6 with
            | ';' :: _ => some ⟨String.mk nm, String.mk vl, pc, qc⟩
            | _ => none
    | _ => none

/-- Parses one line of the file as a string-constant declaration. -/
def parseConstLine (l : String) : Option CDecl := parseCDecl l.data

/-- Textual form `name = "value";` of a string assignment. -/
def assignForm (n v : String) : String := n ++ " = \x22" ++ v ++ "\x22;"

/-- Declaration line as it appears in the source: the `const char*` type,
the assignment in `name = "value";` form, and trailing text `c`. -/
def renderConstLine (n v c : String) : String :=
  "const char* " ++ n ++ (" = \x22" ++ (v ++ ("\x22;" ++ c)))

/-- Preprocessor directives occurring in the source file. -/
inductive Directive where
  | ifndefD (m : String)
  | defineD (m : String)
  | endifD
deriving DecidableEq

/-- Parses a preprocessor directive line. -/
def parseDirective (cs : List Char) : Option Directive :=
  match stripPref "#ifndef ".data cs with
  | some r => some (Directive.ifndefD (String.mk r))
  | none =>
    match stripPref "#define ".data cs with
    | some r => some (Directive.defineD (String.mk r))
    | none =>
      match stripPref "#endif".data cs with
      | some _ => some Directive.endifD
      | none => none

/-- Name tested by an `#ifndef` line, if the line is one. -/
def ifndefName (l : String) : Option String :=
  match parseDirective l.data with
  | some (Directive.ifndefD m) => some m
  | _ => none

/-- Include-guard macro of a file: the first `#ifndef` name occurring in it. -/
def guardOf (lines : List String) : Option String :=
  (lines.filterMap ifndefName).head?

/-- State of the modelled C preprocessor: the set of defined macros and the
stack of conditional-inclusion results currently in force. -/
structure CppState where
  macros : List String
  conds : List Bool
deriving DecidableEq

/-- Whether text lines are currently included (all enclosing conditionals
evaluated to true). -/
def cppActive (st : CppState) : Bool := st.conds.all (fun b => b)

/-- One step of the modelled preprocessor: `#ifndef M` pushes the result of
the test, `#define M` records `M` when active, `#endif` pops, and any other
line is emitted exactly when active. -/
def cppStep (st : CppState) (line : String) : CppState × Option String :=
  match parseDirective line.data with
  | some (Directive.ifndefD m) =>
      ({ st with conds := (!(st.macros.contains m)) :: st.conds }, none)
  | some (Directive.defineD m) =>
      (if cppActive st then { st with macros := m :: st.macros } else st, none)
  | some Directive.endifD => ({ st with conds := st.conds.tail }, none)
  | none => (st, if cppActive st then some line else none)

/-- Runs the modelled preprocessor over a list of lines, returning the final
state and the emitted lines. -/
def cppRun (st : CppState) : List String → CppState × List String
  | [] => (st, [])
  | l :: ls =>
    let p := cppStep st l
    let q := cppRun p.1 ls
    (q.1, p.2.toList ++ q.2)

/-- The 21 lines of `src/main/secrets_example.h`, transcribed byte for byte
(the file has no trailing newline after the final line). -/
def secretsExampleLines : List String :=
  [ "/*",
    " * WiFi Credentials Template",
    " * ",
    " * INSTRUCTIONS:",
    " * 1. Copy this file and rename it to \x22secrets.h\x22",
    " * 2. Replace YOUR_WIFI_SSID with your actual WiFi network name",
    " * 3. Replace YOUR_WIFI_PASSWORD with your actual WiFi password",
    " * 4. Save the file",
    " * ",
    " * IMPORTANT: Never commit secrets.h to version control!",
    " * Only commit secrets_example.h as a template.",
    " */",
    "",
    "#ifndef SECRETS_H",
    "#define SECRETS_H",
    "",
    "// WiFi Network Credentials",
    "const char* ssid = \x22YOUR_WIFI_SSID\x22;        // Replace with your WiFi network name",
    "const char* password = \x22YOUR_WIFI_PASSWORD\x22; // Replace with your WiFi password",
    "",
    "#endif" ]

/-- Inline comment trailing the `ssid` declaration line of the source. -/
def ssidComment : String := "        // Replace with your WiFi network name"

/-- Inline comment trailing the `password` declaration line of the source. -/
def passwordComment : String := " // Replace with your WiFi password"

/-- Lines 1-17 of the template: header comment block, include guard opening,
and the credentials comment — everything before the two declarations. -/
def templateHead : List String :=
  [ "/*",
    " * WiFi Credentials Template",
    " * ",
    " * INSTRUCTIONS:",
    " * 1. Copy this file and rename it to \x22secrets.h\x22",
    " * 2. Replace YOUR_WIFI_SSID with your actual WiFi network name",
    " * 3. Replace YOUR_WIFI_PASSWORD with your actual WiFi password",
    " * 4. Save the file",
    " * ",
    " * IMPORTANT: Never commit secrets.h to version control!",
    " * Only commit secrets_example.h as a template.",
    " */",
    "",
    "#ifndef SECRETS_H",
    "#define SECRETS_H",
    "",
    "// WiFi Network Credentials" ]

/-- Lines 20-21 of the template: the blank line and the guard's `#endif`. -/
def templateTail : List String := ["", "#endif"]

/-- Modelled from the spec: the gitignored real-credentials file `secrets.h`
is not part of the repository; per the template's instructions it is a copy
of `secrets_example.h` in which only the two placeholder values have been
replaced by the strings `s` and `p`. -/
def secretsRealLines (s p : String) : List String :=
  templateHead ++
    renderConstLine "ssid" s ssidComment ::
    renderConstLine "password" p passwordComment ::
    templateTail

/-- Lines the preprocessor emits for a fresh inclusion of the credentials
file, before the two declaration lines: the header comment block and the
blank and comment lines inside the guard. -/
def activeOutHead : List String :=
  [ "/*",
    " * WiFi Credentials Template",
    " * ",
    " * INSTRUCTIONS:",
    " * 1. Copy this file and rename it to \x22secrets.h\x22",
    " * 2. Replace YOUR_WIFI_SSID with your actual WiFi network name",
    " * 3. Replace YOUR_WIFI_PASSWORD with your actual WiFi password",
    " * 4. Save the file",
    " * ",
    " * IMPORTANT: Never commit secrets.h to version control!",
    " * Only commit secrets_example.h as a template.",
    " */",
    "",
    "",
    "// WiFi Network Credentials" ]

/-- String-constant declarations defined by a list of lines. -/
def constDefsOf (lines : List String) : List CDecl :=
  lines.filterMap parseConstLine

/-- Value of the constant named `n`, as read back from the declarations. -/
def lookupVal (ds : List CDecl) (n : String) : Option String :=
  match ds with
  | [] => none
  | d :: rest => if d.name = n then some d.value else lookupVal rest n

/-- C assignment rule: a pointer variable may be reassigned exactly when the
pointer itself carries no `const` qualifier (a `const char*` declaration
qualifies only the pointed-to characters, not the pointer). -/
def assignAllowed (ds : List CDecl) (n : String) : Bool :=
  ds.any (fun d => (d.name == n) && !d.ptrConst)

/-- Initial runtime environment: each declared name holds its initializer. -/
def cEnv0 (ds : List CDecl) : String → Option String :=
  fun n => lookupVal ds n

/-- Effect of the C statement `n = "v";` executed by consuming code: the
binding of `n` changes iff the declarations permit assignment to `n`. -/
def cAssign (ds : List CDecl) (env : String → Option String) (n v : String) :
    String → Option String :=
  fun m => if assignAllowed ds n && (m == n) then some v else env m

/-- Syntactic category of a line of the source file. -/
inductive LineKind where
  | blank
  | comment
  | directive
  | constDecl
  | other

/-- Classifies a line of the file: blank, comment (block-comment opening,
continuation, closing, or line comment), preprocessor directive, or
string-constant declaration; anything else is `other`. -/
def classifyLine (l : String) : LineKind :=
  if l = "" then LineKind.blank
  else if (stripPref "//".data l.data).isSome then LineKind.comment
  else if (stripPref "/*".data l.data).isSome then LineKind.comment
  else if (stripPref " *".data l.data).isSome then LineKind.comment
  else if (parseDirective l.data).isSome then LineKind.directive
  else if (parseConstLine l).isSome then LineKind.constDecl
  else LineKind.other

/-- Whether a line falls outside every declarative syntactic category. -/
def lineIsOther (l : String) : Bool :=
  match classifyLine l with
  | LineKind.other => true
  | _ => false

/-- Whether the character sequence `pat` occurs inside `l`. -/
def hasSub (pat : List Char) : List Char → Bool
  | [] => (stripPref pat []).isSome
  | c :: cs => (stripPref pat (c :: cs)).isSome || hasSub pat cs

/-- Keywords and library calls through which C and C++ code raises, catches,
or aborts on errors. -/
def errorTokens : List String :=
  ["throw", "try", "catch", "raise", "assert", "abort", "exit"]

/-- Concatenation of `n` inclusions of the same file into one translation
unit. -/
def includeTimes : Nat → List String → List String
  | 0, _ => []
  | n + 1, ls => ls ++ includeTimes n ls

/-- Placeholder declaration list of the committed template. -/
def placeholderDecls : List CDecl :=
  [⟨"ssid", "YOUR_WIFI_SSID", true, false⟩,
   ⟨"password", "YOUR_WIFI_PASSWORD", true, false⟩]

/- ### Helper lemmas -/

theorem takeUntil_append (t : Char) (a b : List Char) (h : t ∉ a) :
    takeUntil t (a ++ t :: b) = some (a, b) := by
  induction a with
  | nil => simp [takeUntil]
  | cons x xs ih =>
    have hx : x ≠ t := fun he => h (he ▸ List.mem_cons_self x xs)
    have hxs : t ∉ xs := fun hm => h (List.mem_cons_of_mem x hm)
    simp [takeUntil, hx, ih hxs]

theorem parse_render_ssid (v c : String) (hv : '\x22' ∉ v.data) :
    parseConstLine (renderConstLine "ssid" v c) = some ⟨"ssid", v, true, false⟩ := by
  rw [show parseConstLine (renderConstLine "ssid" v c)
        = (match takeUntil '\x22' (v.data ++ '\x22' :: ';' :: c.data) with
           | none => none
           | some (vl, r6) =>
             match r6 with
             | ';' :: _ => some (⟨"ssid", String.mk vl, true, false⟩ : CDecl)
             | _ => none) from rfl,
      takeUntil_append '\x22' v.data _ hv]
  rfl

theorem parse_render_password (v c : String) (hv : '\x22' ∉ v.data) :
    parseConstLine (renderConstLine "password" v c) = some ⟨"password", v, true, false⟩ := by
  rw [show parseConstLine (renderConstLine "password" v c)
        = (match takeUntil '\x22' (v.data ++ '\x22' :: ';' :: c.data) with
           | none => none
           | some (vl, r6) =>
             match r6 with
             | ';' :: _ => some (⟨"password", String.mk vl, true, false⟩ : CDecl)
             | _ => none) from rfl,
      takeUntil_append '\x22' v.data _ hv]
  rfl

theorem constDefsOf_append (a b : List String) :
    constDefsOf (a ++ b) = constDefsOf a ++ constDefsOf b :=
  List.filterMap_append a b parseConstLine

theorem constDefs_sandwich (pre post : List String) (s p c1 c2 : String)
    (hqs : '\x22' ∉ s.data) (hqp : '\x22' ∉ p.data)
    (hpre : constDefsOf pre = []) (hpost : constDefsOf post = []) :
    constDefsOf
        (pre ++ renderConstLine "ssid" s c1 :: renderConstLine "password" p c2 :: post) =
      [⟨"ssid", s, true, false⟩, ⟨"password", p, true, false⟩] := by
  simp only [constDefsOf] at hpre hpost ⊢
  rw [List.filterMap_append, hpre,
    List.filterMap_cons_some (parse_render_ssid s c1 hqs),
    List.filterMap_cons_some (parse_render_password p c2 hqp), hpost]
  rfl

/-- Substituting the placeholder values back into the modelled copy
reproduces the committed template exactly. -/
theorem secretsReal_placeholder :
    secretsRealLines "YOUR_WIFI_SSID" "YOUR_WIFI_PASSWORD" = secretsExampleLines := rfl

theorem cppRun_cons (st : CppState) (l : String) (ls : List String) :
    cppRun st (l :: ls) =
      ((cppRun (cppStep st l).1 ls).1,
        (cppStep st l).2.toList ++ (cppRun (cppStep st l).1 ls).2) := rfl

theorem cppRun_append (st : CppState) (a b : List String) :
    cppRun st (a ++ b) =
      ((cppRun (cppRun st a).1 b).1,
        (cppRun st a).2 ++ (cppRun (cppRun st a).1 b).2) := by
  induction a generalizing st with
  | nil => rfl
  | cons l ls ih =>
    rw [List.cons_append, cppRun_cons, ih, cppRun_cons]
    simp [List.append_assoc]

theorem cpp_example_fresh_state :
    (cppRun ⟨[], []⟩ secretsExampleLines).1 = ⟨["SECRETS_H"], []⟩ := rfl

theorem cpp_example_fresh_defs :
    constDefsOf (cppRun ⟨[], []⟩ secretsExampleLines).2 = placeholderDecls := rfl

theorem cpp_example_defined_state :
    (cppRun ⟨["SECRETS_H"], []⟩ secretsExampleLines).1 = ⟨["SECRETS_H"], []⟩ := rfl

theorem cpp_example_defined_defs :
    constDefsOf (cppRun ⟨["SECRETS_H"], []⟩ secretsExampleLines).2 = [] := rfl

theorem cpp_real_fresh_state (s p : String) :
    (cppRun ⟨[], []⟩ (secretsRealLines s p)).1 = ⟨["SECRETS_H"], []⟩ := rfl

theorem cpp_real_fresh_out (s p : String) :
    (cppRun ⟨[], []⟩ (secretsRealLines s p)).2 =
      activeOutHead ++
        renderConstLine "ssid" s ssidComment ::
        renderConstLine "password" p passwordComment :: [""] := rfl

theorem cpp_real_defined_defs (s p : String) :
    constDefsOf (cppRun ⟨["SECRETS_H"], []⟩ (secretsRealLines s p)).2 = [] := rfl

theorem cppRun_defined_includeTimes (m : Nat) :
    (cppRun ⟨["SECRETS_H"], []⟩ (includeTimes m secretsExampleLines)).1 =
        ⟨["SECRETS_H"], []⟩ ∧
      constDefsOf (cppRun ⟨["SECRETS_H"], []⟩ (includeTimes m secretsExampleLines)).2 = [] := by
  induction m with
  | zero => exact ⟨rfl, rfl⟩
  | succ k ih =>
    constructor
    · show (cppRun ⟨["SECRETS_H"], []⟩
          (secretsExampleLines ++ includeTimes k secretsExampleLines)).1 = _
      rw [cppRun_append, cpp_example_defined_state]
      exact ih.1
    · show constDefsOf (cppRun ⟨["SECRETS_H"], []⟩
          (secretsExampleLines ++ includeTimes k secretsExampleLines)).2 = _
      rw [cppRun_append, cpp_example_defined_state, constDefsOf_append,
        cpp_example_defined_defs, List.nil_append]
      exact ih.2

/- ### Claim theorems -/

/-- Claim C1: the file defines exactly two string-valued constants, named
`ssid` and `password`, and nothing else in it is a constant definition —
every other line is blank, a comment, or a preprocessor directive. -/
theorem template_defines_exactly_ssid_and_password :
    (constDefsOf secretsExampleLines).map CDecl.name = ["ssid", "password"] ∧
    (constDefsOf secretsExampleLines).length = 2 ∧
    secretsExampleLines.all (fun l => !(lineIsOther l)) = true :=
  ⟨rfl, rfl, rfl⟩

/-- Claim C2: the committed template holds exactly the literal placeholder
values `"YOUR_WIFI_SSID"` and `"YOUR_WIFI_PASSWORD"` as the values of the
network-name and network-secret constants. -/
theorem template_values_are_placeholders :
    lookupVal (constDefsOf secretsExampleLines) "ssid" = some "YOUR_WIFI_SSID" ∧
    lookupVal (constDefsOf secretsExampleLines) "password" = some "YOUR_WIFI_PASSWORD" ∧
    (constDefsOf secretsExampleLines).map CDecl.value =
      ["YOUR_WIFI_SSID", "YOUR_WIFI_PASSWORD"] :=
  ⟨rfl, rfl, rfl⟩

/-- Claim C3, counterexample: the declarations `const char* ssid` and
`const char* password` leave the pointer variables themselves non-const, so
under C assignment rules the consuming program may legally reassign `ssid`,
after which reading `ssid` yields a different string — the values are not
read-only for the lifetime of the artifact. -/
theorem ptr_reassignment_changes_ssid_value :
    assignAllowed (constDefsOf secretsExampleLines) "ssid" = true ∧
    cEnv0 (constDefsOf secretsExampleLines) "ssid" = some "YOUR_WIFI_SSID" ∧
    cAssign (constDefsOf secretsExampleLines)
        (cEnv0 (constDefsOf secretsExampleLines)) "ssid" "evil" "ssid" = some "evil" ∧
    ("evil" : String) ≠ "YOUR_WIFI_SSID" :=
  ⟨rfl, rfl, rfl, by decide⟩

/-- Claim C3, amended: the character data of both constants is declared
`const` (read-only), and the file itself contains no executable statement, so
nothing in this file mutates either value; the pointer variables, however,
are not `const`-qualified, so reassignment by consuming code is permitted. -/
theorem pointee_const_and_no_mutating_code :
    (constDefsOf secretsExampleLines).all (fun d => d.pointeeConst) = true ∧
    (constDefsOf secretsExampleLines).all (fun d => !d.ptrConst) = true ∧
    secretsExampleLines.all (fun l => !(lineIsOther l)) = true :=
  ⟨rfl, rfl, rfl⟩

/-- Claim C4, counterexample: substituting the non-empty strings `A"B` and
`pw` into the template does not read back as those two values — the embedded
double quote terminates the string literal early, so the `ssid` declaration
no longer parses and the read-back misses it entirely. -/
theorem roundtrip_fails_on_quote_value :
    ("A\x22B" : String) ≠ "" ∧ ("pw" : String) ≠ "" ∧
    ¬ (constDefsOf (secretsRealLines "A\x22B" "pw") =
        [⟨"ssid", "A\x22B", true, false⟩, ⟨"password", "pw", true, false⟩]) := by
  refine ⟨by decide, by decide, fun h => ?_⟩
  rw [show constDefsOf (secretsRealLines "A\x22B" "pw") =
      [⟨"password", "pw", true, false⟩] from rfl] at h
  have hl := congrArg List.length h
  simp at hl

/-- Claim C4, amended: for every pair of non-empty strings that contain no
double-quote character, substituting them for the two placeholder values in
a copy of the template and reading the constants back yields exactly those
two strings, unmodified. -/
theorem roundtrip_quote_free (s p : String) (hs : s ≠ "") (hp : p ≠ "")
    (hqs : '\x22' ∉ s.data) (hqp : '\x22' ∉ p.data) :
    constDefsOf (secretsRealLines s p) =
      [⟨"ssid", s, true, false⟩, ⟨"password", p, true, false⟩] :=
  constDefs_sandwich templateHead templateTail s p ssidComment passwordComment
    hqs hqp rfl rfl

theorem roundtrip_quote_free_witness :
    ("HomeNet" : String) ≠ "" ∧ ("s3cr3t!" : String) ≠ "" ∧
    '\x22' ∉ "HomeNet".data ∧ '\x22' ∉ "s3cr3t!".data ∧
    constDefsOf (secretsRealLines "HomeNet" "s3cr3t!") =
      [⟨"ssid", "HomeNet", true, false⟩, ⟨"password", "s3cr3t!", true, false⟩] :=
  ⟨by decide, by decide, by decide, by decide,
    roundtrip_quote_free "HomeNet" "s3cr3t!" (by decide) (by decide)
      (by decide) (by decide)⟩

/-- Claim C5: an empty string is accepted as the value of either constant —
the declarations still parse, nothing rejects or alters them, and reading
them back yields the empty string unchanged. -/
theorem empty_string_values_accepted_unchanged :
    constDefsOf (secretsRealLines "" "") =
      [⟨"ssid", "", true, false⟩, ⟨"password", "", true, false⟩] ∧
    lookupVal (constDefsOf (secretsRealLines "" "")) "ssid" = some "" ∧
    lookupVal (constDefsOf (secretsRealLines "" "")) "password" = some "" :=
  ⟨rfl, rfl, rfl⟩

/-- Claim C6: no line of the file contains any error-raising, catching, or
aborting construct, and every line is declarative — blank, comment,
directive, or constant declaration — so no runtime error behaviour
originates in this file. -/
theorem no_error_raising_or_catching_constructs :
    secretsExampleLines.all
        (fun l => errorTokens.all (fun t => !(hasSub t.data l.data))) = true ∧
    secretsExampleLines.all (fun l => !(lineIsOther l)) = true :=
  ⟨rfl, rfl⟩

/-- Claim C7: each of the two string assignments in the file follows the
textual form `name = "value";`, preceded by the type and followed by an
inline `//` comment. -/
theorem assignments_follow_name_eq_value_form :
    (∃ t c : String,
      secretsExampleLines.get ⟨17, by decide⟩ =
          t ++ assignForm "ssid" "YOUR_WIFI_SSID" ++ c ∧
        hasSub "//".data c.data = true) ∧
    (∃ t c : String,
      secretsExampleLines.get ⟨18, by decide⟩ =
          t ++ assignForm "password" "YOUR_WIFI_PASSWORD" ++ c ∧
        hasSub "//".data c.data = true) :=
  ⟨⟨"const char* ", ssidComment, rfl, rfl⟩,
   ⟨"const char* ", passwordComment, rfl, rfl⟩⟩

/-- Claim C8: the source file is exactly 21 lines of text. -/
theorem template_has_21_lines : secretsExampleLines.length = 21 := rfl

/-- Claim C9: inclusion is idempotent — pasting the file `n + 1` times into
one translation unit and preprocessing yields the two constant definitions
exactly once, because `SECRETS_H` is defined by the first copy and every
later copy is skipped by the include guard. -/
theorem include_guard_idempotent (n : Nat) :
    constDefsOf (cppRun ⟨[], []⟩ (includeTimes (n + 1) secretsExampleLines)).2 =
      placeholderDecls := by
  show constDefsOf
      (cppRun ⟨[], []⟩ (secretsExampleLines ++ includeTimes n secretsExampleLines)).2 = _
  rw [cppRun_append, cpp_example_fresh_state, constDefsOf_append,
    cpp_example_fresh_defs, (cppRun_defined_includeTimes n).2]
  rfl

/-- Claim C10: the template's include guard is `SECRETS_H` — the same guard
the edited copy `secrets.h` uses — so in a translation unit that includes
both files only the first-included one defines `ssid` and `password`:
template first yields the placeholder values, real copy first yields the
real values, and no redefinition occurs in either order. -/
theorem same_guard_mutual_exclusion (s p : String)
    (hqs : '\x22' ∉ s.data) (hqp : '\x22' ∉ p.data) :
    guardOf secretsExampleLines = some "SECRETS_H" ∧
    guardOf (secretsRealLines s p) = some "SECRETS_H" ∧
    constDefsOf (cppRun ⟨[], []⟩ (secretsExampleLines ++ secretsRealLines s p)).2 =
      placeholderDecls ∧
    constDefsOf (cppRun ⟨[], []⟩ (secretsRealLines s p ++ secretsExampleLines)).2 =
      [⟨"ssid", s, true, false⟩, ⟨"password", p, true, false⟩] := by
  refine ⟨rfl, rfl, ?_, ?_⟩
  · rw [cppRun_append, cpp_example_fresh_state, constDefsOf_append,
      cpp_example_fresh_defs, cpp_real_defined_defs]
    rfl
  · rw [cppRun_append, cpp_real_fresh_state, constDefsOf_append,
      cpp_example_defined_defs, cpp_real_fresh_out,
      constDefs_sandwich activeOutHead [""] s p ssidComment passwordComment
        hqs hqp rfl rfl]
    rfl

theorem same_guard_mutual_exclusion_witness :
    '\x22' ∉ "HomeNet".data ∧ '\x22' ∉ "s3cr3t!".data ∧
    (guardOf secretsExampleLines = some "SECRETS_H" ∧
      guardOf (secretsRealLines "HomeNet" "s3cr3t!") = some "SECRETS_H" ∧
      constDefsOf
          (cppRun ⟨[], []⟩ (secretsExampleLines ++ secretsRealLines "HomeNet" "s3cr3t!")).2 =
        placeholderDecls ∧
      constDefsOf
          (cppRun ⟨[], []⟩ (secretsRealLines "HomeNet" "s3cr3t!" ++ secretsExampleLines)).2 =
        [⟨"ssid", "HomeNet", true, false⟩, ⟨"password", "s3cr3t!", true, false⟩]) :=
  ⟨by decide, by decide,
    same_guard_mutual_exclusion "HomeNet" "s3cr3t!" (by decide) (by decide)⟩

end Secrets
